import Mathlib

/-!
# Verification of the auth/session core of `expresswithpsql`

Shallow embedding of the authentication core (`src/services/auth.service.ts`,
`src/middleware/auth.middleware.ts`, `src/utils/errors.ts`) of the
Express/Prisma backend.  Time is modelled as a single `Nat` clock in seconds
(JS milliseconds and JWT seconds unified); the Prisma store is an explicit
`DB` value threaded through each operation; JWTs are modelled symbolically as
records carrying their payload, `iat`/`exp` claims and the secret they were
signed with, so that `jwt.verify` is signature comparison plus the library's
expiry check.
-/

namespace ExpressAuth

/-- Prisma `enum Role { USER ADMIN SUPER_ADMIN }`. -/
inductive Role where
  | USER
  | ADMIN
  | SUPER_ADMIN
deriving DecidableEq, Repr

/-- The `type` discriminator of `TokenPayload` (`'access' | 'refresh'`). -/
inductive TokenType where
  | access
  | refresh
deriving DecidableEq, Repr

/-- `TokenPayload` from `auth.service.ts`: `{ sub, email, role, type }`. -/
structure TokenPayload where
  sub : String
  email : String
  role : Role
  type : TokenType
deriving DecidableEq, Repr

/-- A signed JWT, modelled symbolically: the payload, the `iat`/`exp` claims
added by `jwt.sign`, and the secret used for signing (signature validity at
verification time is modelled as equality of secrets). -/
structure Jwt where
  payload : TokenPayload
  iat : Nat
  exp : Nat
  secret : String
deriving DecidableEq, Repr

/-- `jwt.sign(payload, secret, { expiresIn })` at clock `now`. -/
def jwtSign (p : TokenPayload) (secret : String) (expiresIn : Nat) (now : Nat) : Jwt :=
  { payload := p, iat := now, exp := now + expiresIn, secret := secret }

/-- Outcome of `jwt.verify`: success with the decoded payload, a
`JsonWebTokenError` (bad signature / malformed token), or a
`TokenExpiredError` (signature fine, `exp` elapsed). -/
inductive VerifyResult where
  | ok (payload : TokenPayload)
  | invalidSignature
  | expired
deriving DecidableEq, Repr

/-- `jwt.verify(token, secret)` at clock `now`: the library verifies the
signature first, then rejects when `clockTimestamp >= exp`. -/
def jwtVerify (t : Jwt) (secret : String) (now : Nat) : VerifyResult :=
  if t.secret ≠ secret then .invalidSignature
  else if t.exp ≤ now then .expired
  else .ok t.payload

/-- Prisma `User` row (schema.prisma): `lastLoginAt` is nullable, timestamps
are `Nat` seconds. -/
structure User where
  id : String
  email : String
  username : String
  passwordHash : String
  firstName : Option String
  lastName : Option String
  role : Role
  isActive : Bool
  isVerified : Bool
  createdAt : Nat
  lastLoginAt : Option Nat
deriving DecidableEq, Repr

/-- Prisma `RefreshToken` row: `token` is the (unique) token itself, `userId`
the owning user, `expiresAt` the store-tracked expiry, `isRevoked` the
revocation flag. -/
structure RefreshTokenRow where
  id : Nat
  token : Jwt
  userId : String
  expiresAt : Nat
  isRevoked : Bool
  createdAt : Nat
deriving DecidableEq, Repr

/-- The persistent store: `user` and `refresh_tokens` tables plus counters
standing in for Prisma's id generation. -/
structure DB where
  users : List User
  refreshTokens : List RefreshTokenRow
  nextUserId : Nat
  nextTokenRowId : Nat
deriving DecidableEq, Repr

/-- `config.jwt` from `src/config/index.ts`: shared secret and the two
duration strings (`JWT_ACCESS_TOKEN_EXPIRES_IN`, `JWT_REFRESH_TOKEN_EXPIRES_IN`). -/
structure Config where
  secret : String
  accessTokenExpiresIn : String
  refreshTokenExpiresIn : String
deriving DecidableEq, Repr

/-- Errors that can escape a call into the auth core: the typed errors of
`src/utils/errors.ts` (`NotFoundError resource` renders as
`"<resource> not found"`), plus `prismaUniqueViolation`, the
`PrismaClientKnownRequestError` with code `P2002` that
`prisma.refreshToken.create` throws on a unique-constraint violation — the
service has no try/catch around its storage calls, so it propagates to the
boundary translator (`error.middleware.ts` maps P2002 to a 409).
`internalError` stands for any other error surfaced by a layer below the
service; no claim exercises it. -/
inductive AppErr where
  | authentication (message : String)
  | conflict (message : String)
  | notFound (resource : String)
  | prismaUniqueViolation (target : String)
  | internalError (message : String)
deriving DecidableEq, Repr

/-- Digits-to-number accumulation performed by `parseInt(match[1], 10)`. -/
def digitsToNat (cs : List Char) : Nat :=
  cs.foldl (fun acc c => acc * 10 + (c.toNat - '0'.toNat)) 0

/-- `parseDuration` from `auth.service.ts`: match `^(\d+)([smhd])$`; on no
match return 900 (default 15 minutes); otherwise scale the integer by the
unit. -/
def parseDuration (duration : String) : Nat :=
  match duration.toList.reverse with
  | [] => 900
  | unit :: revDigits =>
    let digits := revDigits.reverse
    if digits ≠ [] ∧ digits.all Char.isDigit then
      let value := digitsToNat digits
      if unit = 's' then value
      else if unit = 'm' then value * 60
      else if unit = 'h' then value * 60 * 60
      else if unit = 'd' then value * 60 * 60 * 24
      else 900
    else 900

/-- `TokenPair` returned after login/register/refresh. -/
structure TokenPair where
  accessToken : Jwt
  refreshToken : Jwt
deriving DecidableEq, Repr

/-- The refresh JWT `generateTokens` signs at clock `now` for `user`: the
`jwt.sign(refreshPayload, secret, { expiresIn })` step.  `jwt.sign` is
deterministic (HS256 over a fixed serialization with whole-second `iat`), so
a re-issuance for the same user in the same second reproduces the token
byte for byte. -/
def mintedRefreshToken (cfg : Config) (now : Nat) (user : User) : Jwt :=
  jwtSign
    { sub := user.id, email := user.email, role := user.role, type := .refresh }
    cfg.secret (parseDuration cfg.refreshTokenExpiresIn) now

/-- `generateTokens` from `auth.service.ts`: sign an access and a refresh
token from the same claims (differing in `type` and expiry horizon), then
persist the refresh token via `prisma.refreshToken.create` with `expiresAt`
fixed at 7 days from now (`expiresAt.setDate(expiresAt.getDate() + 7)`),
independent of the token's own embedded expiry.  The `token` column is
`@unique` (schema.prisma), so when the minted token string already exists in
the store — which happens on a same-second re-issuance for the same user,
since `jwt.sign` is deterministic — the insert throws
`PrismaClientKnownRequestError` P2002 instead of persisting; nothing in the
service catches it. -/
def generateTokens (cfg : Config) (now : Nat) (user : User) (db : DB) :
    Except AppErr (TokenPair × DB) :=
  let accessPayload : TokenPayload :=
    { sub := user.id, email := user.email, role := user.role, type := .access }
  let accessExpiresIn := parseDuration cfg.accessTokenExpiresIn
  let accessToken := jwtSign accessPayload cfg.secret accessExpiresIn now
  let refreshToken := mintedRefreshToken cfg now user
  let expiresAt := now + 7 * 24 * 60 * 60
  let row : RefreshTokenRow :=
    { id := db.nextTokenRowId, token := refreshToken, userId := user.id,
      expiresAt := expiresAt, isRevoked := false, createdAt := now }
  if db.refreshTokens.any (fun r => r.token = refreshToken) then
    .error (.prismaUniqueViolation "RefreshToken.token")
  else
    .ok ({ accessToken := accessToken, refreshToken := refreshToken },
      { db with refreshTokens := db.refreshTokens ++ [row],
                nextTokenRowId := db.nextTokenRowId + 1 })

/-- `SafeUser`: the client-facing projection (no `passwordHash`). -/
structure SafeUser where
  id : String
  email : String
  username : String
  firstName : Option String
  lastName : Option String
  role : Role
  isActive : Bool
  isVerified : Bool
  createdAt : Nat
deriving DecidableEq, Repr

/-- `toSafeUser` from `auth.service.ts`: the object literal copying exactly
the nine non-sensitive fields. -/
def toSafeUser (user : User) : SafeUser :=
  { id := user.id, email := user.email, username := user.username,
    firstName := user.firstName, lastName := user.lastName, role := user.role,
    isActive := user.isActive, isVerified := user.isVerified,
    createdAt := user.createdAt }

/-- The JSON keys of the serialized `SafeUser` object, in the order of the
object literal in `toSafeUser`. -/
def SafeUser.fieldNames : List String :=
  ["id", "email", "username", "firstName", "lastName", "role",
   "isActive", "isVerified", "createdAt"]

/-- `RegisterInput` (auth.schema.ts): `firstName`/`lastName` optional. -/
structure RegisterInput where
  email : String
  username : String
  password : String
  firstName : Option String
  lastName : Option String
deriving DecidableEq, Repr

/-- `LoginInput` (auth.schema.ts). -/
structure LoginInput where
  email : String
  password : String
deriving DecidableEq, Repr

/-- `register` from `auth.service.ts`.  `hashPassword` (bcrypt with a random
salt) is passed as a function parameter.  Email conflict is checked first,
username second; on success the user row is created with the schema defaults
(`role USER`, `isActive true`, `isVerified false`) and a token pair is
issued.  The updated store is returned alongside the result; conflict
failures leave it unchanged, but a token-issuance failure after the user row
committed leaves that row behind (no rollback path — the orphaned-user gap
the spec acknowledges). -/
def register (cfg : Config) (now : Nat) (hashPassword : String → String)
    (data : RegisterInput) (db : DB) :
    Except AppErr (SafeUser × TokenPair) × DB :=
  match db.users.find? (fun u => u.email = data.email) with
  | some _ => (.error (.conflict "Email already registered"), db)
  | none =>
    match db.users.find? (fun u => u.username = data.username) with
    | some _ => (.error (.conflict "Username already taken"), db)
    | none =>
      let passwordHash := hashPassword data.password
      let user : User :=
        { id := toString db.nextUserId, email := data.email,
          username := data.username, passwordHash := passwordHash,
          firstName := data.firstName, lastName := data.lastName,
          role := .USER, isActive := true, isVerified := false,
          createdAt := now, lastLoginAt := none }
      let db1 := { db with users := db.users ++ [user],
                           nextUserId := db.nextUserId + 1 }
      match generateTokens cfg now user db1 with
      | .error e => (.error e, db1)
      | .ok td => (.ok (toSafeUser user, td.1), td.2)

/-- `login` from `auth.service.ts`.  `verifyPassword plaintext hash` (bcrypt
compare) is passed as a function parameter.  Absent email and wrong password
both fail with the same generic message; an inactive account fails with the
distinct "Account is disabled"; on success `lastLoginAt` is updated and a
token pair issued (tokens and the returned projection use the pre-update
`user` object, as in the source). -/
def login (cfg : Config) (now : Nat) (verifyPassword : String → String → Bool)
    (data : LoginInput) (db : DB) :
    Except AppErr (SafeUser × TokenPair) × DB :=
  match db.users.find? (fun u => u.email = data.email) with
  | none => (.error (.authentication "Invalid email or password"), db)
  | some user =>
    if user.isActive = false then
      (.error (.authentication "Account is disabled"), db)
    else if verifyPassword data.password user.passwordHash = false then
      (.error (.authentication "Invalid email or password"), db)
    else
      let db1 := { db with users := db.users.map (fun u =>
        if u.id = user.id then { u with lastLoginAt := some now } else u) }
      match generateTokens cfg now user db1 with
      | .error e => (.error e, db1)
      | .ok td => (.ok (toSafeUser user, td.1), td.2)

/-- `refreshAccessToken` from `auth.service.ts`.  The `try/catch` around
`jwt.verify` maps BOTH verification failure kinds (bad signature and the
token's own embedded expiry) to "Invalid refresh token"; then the `type`
discriminator is checked; then the store row is looked up
(`findUnique({ where: { token }, include: { user: true } })`): missing and
revoked rows share the message "Token has been revoked", a store-expired row
fails with "Token has expired"; otherwise the looked-up row is revoked
(rotation) and a fresh pair issued for the row's user.  Revoke-old and
persist-new are separate, non-transactional operations, so when the insert
inside `generateTokens` throws (P2002 on a colliding token value) the
function rethrows with the rotation already persisted — the old token is
dead and no new one was issued.  The `internalError` branch models a
violated foreign key (`storedToken.user` is a required relation, so it is
unreachable on stores with referential integrity). -/
def refreshAccessToken (cfg : Config) (now : Nat) (refreshToken : Jwt)
    (db : DB) : Except AppErr TokenPair × DB :=
  match jwtVerify refreshToken cfg.secret now with
  | .invalidSignature => (.error (.authentication "Invalid refresh token"), db)
  | .expired => (.error (.authentication "Invalid refresh token"), db)
  | .ok payload =>
    if payload.type ≠ .refresh then
      (.error (.authentication "Invalid token type"), db)
    else
      match db.refreshTokens.find? (fun r => r.token = refreshToken) with
      | none => (.error (.authentication "Token has been revoked"), db)
      | some storedToken =>
        if storedToken.isRevoked then
          (.error (.authentication "Token has been revoked"), db)
        else if storedToken.expiresAt < now then
          (.error (.authentication "Token has expired"), db)
        else
          match db.users.find? (fun u => u.id = storedToken.userId) with
          | none => (.error (.internalError "refresh token row has no user"), db)
          | some user =>
            let db1 := { db with refreshTokens := db.refreshTokens.map (fun r =>
              if r.id = storedToken.id then { r with isRevoked := true } else r) }
            match generateTokens cfg now user db1 with
            | .error e => (.error e, db1)
            | .ok td => (.ok td.1, td.2)

/-- `logout` from `auth.service.ts`: with a token, `updateMany` over rows
matching `{ token, userId }`; without, over rows matching `{ userId }`; in
both cases setting `isRevoked := true`.  `updateMany` never fails on zero
matches, so the operation is total. -/
def logout (userId : String) (refreshToken : Option Jwt) (db : DB) : DB :=
  match refreshToken with
  | some tok =>
    { db with refreshTokens := db.refreshTokens.map (fun r =>
        if r.token = tok ∧ r.userId = userId then { r with isRevoked := true }
        else r) }
  | none =>
    { db with refreshTokens := db.refreshTokens.map (fun r =>
        if r.userId = userId then { r with isRevoked := true } else r) }

/-- `getCurrentUser` from `auth.service.ts`. -/
def getCurrentUser (userId : String) (db : DB) : Except AppErr SafeUser :=
  match db.users.find? (fun u => u.id = userId) with
  | none => .error (.notFound "User")
  | some user => .ok (toSafeUser user)

/-! ## Authorization Gate (`src/middleware/auth.middleware.ts`) -/

/-- Errors that can be thrown inside `authenticate`'s `try` block: the typed
`AppError`s the middleware itself throws, and the two error classes
`jwt.verify` can throw. -/
inductive GateError where
  | appError (e : AppErr)
  | jsonWebTokenError
  | tokenExpiredError
deriving DecidableEq, Repr

/-- `error instanceof jwt.JsonWebTokenError`.  In the `jsonwebtoken` library
`TokenExpiredError` is a subclass of `JsonWebTokenError`
(`TokenExpiredError.prototype = Object.create(JsonWebTokenError.prototype)`),
so an expired-token error also satisfies this test. -/
def GateError.isJsonWebTokenError : GateError → Bool
  | .jsonWebTokenError => true
  | .tokenExpiredError => true
  | .appError _ => false

/-- `error instanceof jwt.TokenExpiredError`. -/
def GateError.isTokenExpiredError : GateError → Bool
  | .tokenExpiredError => true
  | _ => false

/-- A non-`AppError` forwarded by `next(error)` reaches the centralized error
middleware, which maps unknown errors to a generic 500. -/
def GateError.forward : GateError → AppErr
  | .appError e => e
  | .jsonWebTokenError => .internalError "JsonWebTokenError"
  | .tokenExpiredError => .internalError "TokenExpiredError"

/-- `{ id, email, role }` attached to the request on success. -/
structure RequestUser where
  id : String
  email : String
  role : Role
deriving DecidableEq, Repr

/-- Body of `authenticate`'s `try` block: extract-token result is passed in
as `token?`; verify; check the `type` discriminator is `access`; re-fetch the
user and require it to exist and be active. -/
def authenticateTry (cfg : Config) (now : Nat) (token : Option Jwt) (db : DB) :
    Except GateError RequestUser :=
  match token with
  | none => .error (.appError (.authentication "No token provided"))
  | some tok =>
    match jwtVerify tok cfg.secret now with
    | .invalidSignature => .error .jsonWebTokenError
    | .expired => .error .tokenExpiredError
    | .ok payload =>
      if payload.type ≠ .access then
        .error (.appError (.authentication "Invalid token type"))
      else
        match db.users.find? (fun u => u.id = payload.sub) with
        | none =>
          .error (.appError (.authentication "User not found or inactive"))
        | some user =>
          if user.isActive = false then
            .error (.appError (.authentication "User not found or inactive"))
          else
            .ok { id := user.id, email := user.email, role := user.role }

/-- `authenticate` middleware: the `try` body above, with the `catch` block's
two `instanceof` tests in source order — `JsonWebTokenError` first, then
`TokenExpiredError` — and `next(error)` otherwise. -/
def authenticate (cfg : Config) (now : Nat) (token : Option Jwt) (db : DB) :
    Except AppErr RequestUser :=
  match authenticateTry cfg now token db with
  | .ok u => .ok u
  | .error e =>
    if e.isJsonWebTokenError then .error (.authentication "Invalid token")
    else if e.isTokenExpiredError then .error (.authentication "Token expired")
    else .error e.forward

/-! ## Helper lemmas -/

/-- Unfolding characterisation of a successful `jwt.verify`. -/
lemma jwtVerify_ok_iff (t : Jwt) (s : String) (now : Nat) (p : TokenPayload) :
    jwtVerify t s now = .ok p ↔ t.secret = s ∧ now < t.exp ∧ p = t.payload := by
  unfold jwtVerify
  by_cases hs : t.secret = s
  all_goals by_cases he : t.exp ≤ now
  all_goals simp [hs, he, eq_comm]
  all_goals omega

/-- Proof-side abbreviation of the rotation update inside
`refreshAccessToken`: the store after `updateMany` sets `isRevoked := true`
on the row with id `rowId`. -/
def rotateDB (db : DB) (rowId : Nat) : DB :=
  { db with refreshTokens := db.refreshTokens.map (fun r =>
      if r.id = rowId then { r with isRevoked := true } else r) }

/-- The rotation update never changes a row's `token` field. -/
lemma rotate_preserves_token (rowId : Nat) (r : RefreshTokenRow) :
    (if r.id = rowId then { r with isRevoked := true } else r).token =
      r.token := by
  by_cases hc : r.id = rowId
  · rw [if_pos hc]
  · rw [if_neg hc]

/-- Every row of a rotated store carries the token of some original row. -/
lemma mem_rotate_token (db : DB) (rowId : Nat) (r : RefreshTokenRow)
    (hr : r ∈ (rotateDB db rowId).refreshTokens) :
    ∃ r0 ∈ db.refreshTokens, r.token = r0.token := by
  obtain ⟨r0, hr0, heq⟩ := List.mem_map.mp (by simpa [rotateDB] using hr)
  exact ⟨r0, hr0, by rw [← heq, rotate_preserves_token]⟩

/-- When the minted refresh token collides with no stored token, the insert
succeeds and `generateTokens` returns the signed pair together with the
store extended by exactly one row. -/
lemma generateTokens_of_fresh (cfg : Config) (now : Nat) (user : User)
    (db : DB)
    (h : ∀ r ∈ db.refreshTokens, r.token ≠ mintedRefreshToken cfg now user) :
    generateTokens cfg now user db =
      .ok ({ accessToken := jwtSign
               { sub := user.id, email := user.email, role := user.role,
                 type := .access }
               cfg.secret (parseDuration cfg.accessTokenExpiresIn) now,
             refreshToken := mintedRefreshToken cfg now user },
        { db with
          refreshTokens := db.refreshTokens ++
            [{ id := db.nextTokenRowId,
               token := mintedRefreshToken cfg now user,
               userId := user.id, expiresAt := now + 7 * 24 * 60 * 60,
               isRevoked := false, createdAt := now }]
          nextTokenRowId := db.nextTokenRowId + 1 }) := by
  unfold generateTokens
  rw [if_neg]
  intro hc
  obtain ⟨r, hr, hrt⟩ := List.any_eq_true.mp hc
  exact absurd (of_decide_eq_true hrt) (h r hr)

/-- When the minted refresh token equals some stored token, the insert hits
the unique constraint and `generateTokens` throws P2002. -/
lemma generateTokens_error_of_collision (cfg : Config) (now : Nat)
    (user : User) (db : DB)
    (h : ∃ r ∈ db.refreshTokens, r.token = mintedRefreshToken cfg now user) :
    generateTokens cfg now user db =
      .error (.prismaUniqueViolation "RefreshToken.token") := by
  unfold generateTokens
  rw [if_pos]
  obtain ⟨r, hr, hrt⟩ := h
  exact List.any_eq_true.mpr ⟨r, hr, decide_eq_true hrt⟩

/-- Inversion: a successful `generateTokens` minted the deterministic
refresh token, kept the users table, and appended exactly the 7-day row. -/
lemma generateTokens_ok_inv (cfg : Config) (now : Nat) (user : User)
    (db : DB) (pair : TokenPair) (db' : DB)
    (h : generateTokens cfg now user db = .ok (pair, db')) :
    pair.refreshToken = mintedRefreshToken cfg now user ∧
    db'.users = db.users ∧
    db'.refreshTokens = db.refreshTokens ++
      [{ id := db.nextTokenRowId, token := mintedRefreshToken cfg now user,
         userId := user.id, expiresAt := now + 7 * 24 * 60 * 60,
         isRevoked := false, createdAt := now }] := by
  simp only [generateTokens] at h
  split at h
  · exact absurd h (by simp)
  · simp only [Except.ok.injEq, Prod.mk.injEq] at h
    obtain ⟨h1, h2⟩ := h
    refine ⟨?_, ?_, ?_⟩
    · rw [← h1]
    · rw [← h2]
    · rw [← h2]

/-- Inversion: a successful `register` created some user and obtained its
result and final store from a successful `generateTokens`. -/
lemma register_ok_shape (cfg : Config) (now : Nat) (hash : String → String)
    (data : RegisterInput) (db : DB) (res : SafeUser × TokenPair) (db' : DB)
    (h : register cfg now hash data db = (.ok res, db')) :
    ∃ user dbMid pair, res.1 = toSafeUser user ∧
      generateTokens cfg now user dbMid = .ok (pair, db') := by
  simp only [register] at h
  split at h
  · exact absurd h (by simp)
  · split at h
    · exact absurd h (by simp)
    · split at h
      · exact absurd h (by simp)
      · rename_i td hgen
        simp only [Prod.mk.injEq, Except.ok.injEq] at h
        obtain ⟨h1, h2⟩ := h
        subst h2
        exact ⟨_, _, td.1, by rw [← h1], hgen⟩

/-- Inversion: a successful `login` found its user by email in the store and
obtained its result and final store from a successful `generateTokens`. -/
lemma login_ok_shape (cfg : Config) (now : Nat)
    (vp : String → String → Bool) (data : LoginInput) (db : DB)
    (res : SafeUser × TokenPair) (db' : DB)
    (h : login cfg now vp data db = (.ok res, db')) :
    ∃ user dbMid pair,
      db.users.find? (fun v => v.email = data.email) = some user ∧
      res.1 = toSafeUser user ∧
      generateTokens cfg now user dbMid = .ok (pair, db') := by
  simp only [login] at h
  split at h
  · exact absurd h (by simp)
  · rename_i user hfind
    split at h
    · exact absurd h (by simp)
    · split at h
      · exact absurd h (by simp)
      · split at h
        · exact absurd h (by simp)
        · rename_i td hgen
          simp only [Prod.mk.injEq, Except.ok.injEq] at h
          obtain ⟨h1, h2⟩ := h
          subst h2
          exact ⟨user, _, td.1, hfind, by rw [← h1], hgen⟩

/-- Inversion: a successful `refreshAccessToken` obtained its result and
final store from a successful `generateTokens`. -/
lemma refresh_ok_shape (cfg : Config) (now : Nat) (tok : Jwt) (db : DB)
    (res : TokenPair) (db' : DB)
    (h : refreshAccessToken cfg now tok db = (.ok res, db')) :
    ∃ user dbMid, generateTokens cfg now user dbMid = .ok (res, db') := by
  simp only [refreshAccessToken] at h
  split at h
  · exact absurd h (by simp)
  · exact absurd h (by simp)
  · split at h
    · exact absurd h (by simp)
    · split at h
      · exact absurd h (by simp)
      · split at h
        · exact absurd h (by simp)
        · split at h
          · exact absurd h (by simp)
          · split at h
            · exact absurd h (by simp)
            · split at h
              · exact absurd h (by simp)
              · rename_i td hgen
                simp only [Prod.mk.injEq, Except.ok.injEq] at h
                obtain ⟨h1, h2⟩ := h
                subst h1
                subst h2
                exact ⟨_, _, hgen⟩

/-- The store a successful rotation leaves behind: old rows with the found
row (id `rowId`) revoked, plus the freshly minted 7-day row. -/
def afterRefreshDB (cfg : Config) (now : Nat) (user : User) (db : DB)
    (rowId : Nat) : DB :=
  { rotateDB db rowId with
    refreshTokens := (rotateDB db rowId).refreshTokens ++
      [{ id := db.nextTokenRowId,
         token := mintedRefreshToken cfg now user,
         userId := user.id, expiresAt := now + 7 * 24 * 60 * 60,
         isRevoked := false, createdAt := now }]
    nextTokenRowId := db.nextTokenRowId + 1 }

/-- When the presented token verifies as a refresh token, its stored row is
live, and the re-minted refresh token collides with no stored token,
`refreshAccessToken` succeeds: the found row is revoked and the fresh
pair's 7-day row appended. -/
lemma refreshAccessToken_ok_of_valid (cfg : Config) (now : Nat) (tok : Jwt)
    (db : DB) (row : RefreshTokenRow) (user : User)
    (hv : jwtVerify tok cfg.secret now = .ok tok.payload)
    (htyp : tok.payload.type = .refresh)
    (hfind : db.refreshTokens.find? (fun r => r.token = tok) = some row)
    (hrev : row.isRevoked = false)
    (hexp : ¬ row.expiresAt < now)
    (huser : db.users.find? (fun u => u.id = row.userId) = some user)
    (hfreshm : ∀ r ∈ db.refreshTokens,
      r.token ≠ mintedRefreshToken cfg now user) :
    refreshAccessToken cfg now tok db =
      (.ok { accessToken := jwtSign
               { sub := user.id, email := user.email, role := user.role,
                 type := .access }
               cfg.secret (parseDuration cfg.accessTokenExpiresIn) now,
             refreshToken := mintedRefreshToken cfg now user },
       afterRefreshDB cfg now user db row.id) := by
  have hfresh1 : ∀ r ∈ (rotateDB db row.id).refreshTokens,
      r.token ≠ mintedRefreshToken cfg now user := by
    intro r hr
    obtain ⟨r0, hr0, htok⟩ := mem_rotate_token db row.id r hr
    rw [htok]
    exact hfreshm r0 hr0
  have hgen := generateTokens_of_fresh cfg now user (rotateDB db row.id)
    hfresh1
  unfold refreshAccessToken
  rw [hv]
  simp only [afterRefreshDB, rotateDB] at hgen ⊢
  simp [hgen, htyp, hfind, hrev, hexp, huser]

/-! ## Concrete fixtures for witnesses and counterexamples -/

/-- Sample configuration: shared secret `"s"`, 15-minute access tokens,
7-day refresh tokens. -/
def cfg0 : Config :=
  { secret := "s", accessTokenExpiresIn := "15m", refreshTokenExpiresIn := "7d" }

/-- Sample active user. -/
def alice : User :=
  { id := "u1", email := "a@x.com", username := "alice", passwordHash := "H1",
    firstName := none, lastName := none, role := .USER, isActive := true,
    isVerified := false, createdAt := 0, lastLoginAt := none }

/-- Sample disabled user (`isActive = false`). -/
def bob : User :=
  { id := "u2", email := "b@x.com", username := "bob", passwordHash := "H2",
    firstName := none, lastName := none, role := .USER, isActive := false,
    isVerified := false, createdAt := 0, lastLoginAt := none }

/-- Sample store holding the two users and no refresh tokens. -/
def db0 : DB :=
  { users := [alice, bob], refreshTokens := [], nextUserId := 3,
    nextTokenRowId := 0 }

/-! ## C4: login error-message symmetry -/

/-- Claim C4: a login attempt with a nonexistent email and one against an
existing active account with a wrong password raise `AuthenticationError`
with byte-identical messages ("Invalid email or password"), while a login
against an `isActive = false` account fails with the distinguishable
"Account is disabled". -/
theorem login_message_symmetry (cfg : Config) (now : Nat)
    (vp : String → String → Bool) (data : LoginInput) (db : DB) :
    (db.users.find? (fun u => u.email = data.email) = none →
      login cfg now vp data db =
        (.error (.authentication "Invalid email or password"), db)) ∧
    (∀ u, db.users.find? (fun v => v.email = data.email) = some u →
      u.isActive = true → vp data.password u.passwordHash = false →
      login cfg now vp data db =
        (.error (.authentication "Invalid email or password"), db)) ∧
    (∀ u, db.users.find? (fun v => v.email = data.email) = some u →
      u.isActive = false →
      login cfg now vp data db =
        (.error (.authentication "Account is disabled"), db)) := by
  refine ⟨fun h => ?_, fun u h ha hp => ?_, fun u h ha => ?_⟩
  · simp [login, h]
  · simp [login, h, ha, hp]
  · simp [login, h, ha]

/-- Witness for `login_message_symmetry` on the concrete store `db0`:
unknown email `n@x.com`, wrong password for active `alice`, and disabled
`bob`. -/
theorem login_message_symmetry_witness :
    login cfg0 0 (fun _ _ => false) { email := "n@x.com", password := "pw" }
        db0 =
      (.error (.authentication "Invalid email or password"), db0) ∧
    login cfg0 0 (fun _ _ => false) { email := "a@x.com", password := "pw" }
        db0 =
      (.error (.authentication "Invalid email or password"), db0) ∧
    login cfg0 0 (fun _ _ => false) { email := "b@x.com", password := "pw" }
        db0 =
      (.error (.authentication "Account is disabled"), db0) :=
  ⟨(login_message_symmetry cfg0 0 _ _ db0).1 (by decide),
   (login_message_symmetry cfg0 0 _ _ db0).2.1 alice (by decide) (by decide)
     rfl,
   (login_message_symmetry cfg0 0 _ _ db0).2.2 bob (by decide) (by decide)⟩

/-! ## C7: register conflict precedence -/

/-- Claim C7: `register` fails with a conflict when the email already exists
(checked first) or the username already exists (checked second); when both
conflict, the email conflict alone is reported. -/
theorem register_conflict_order (cfg : Config) (now : Nat)
    (hash : String → String) (data : RegisterInput) (db : DB) :
    (∀ u, db.users.find? (fun v => v.email = data.email) = some u →
      register cfg now hash data db =
        (.error (.conflict "Email already registered"), db)) ∧
    (db.users.find? (fun v => v.email = data.email) = none →
      ∀ u, db.users.find? (fun v => v.username = data.username) = some u →
      register cfg now hash data db =
        (.error (.conflict "Username already taken"), db)) ∧
    (∀ u w, db.users.find? (fun v => v.email = data.email) = some u →
      db.users.find? (fun v => v.username = data.username) = some w →
      register cfg now hash data db =
        (.error (.conflict "Email already registered"), db)) := by
  refine ⟨fun u h => ?_, fun h u h2 => ?_, fun u w h h2 => ?_⟩
  · simp [register, h]
  · simp [register, h, h2]
  · simp [register, h]

/-- Witness for `register_conflict_order` on `db0`: a duplicate email, a
duplicate username, and a request conflicting on both. -/
theorem register_conflict_order_witness :
    register cfg0 0 id
        { email := "a@x.com", username := "fresh", password := "pw",
          firstName := none, lastName := none } db0 =
      (.error (.conflict "Email already registered"), db0) ∧
    register cfg0 0 id
        { email := "new@x.com", username := "alice", password := "pw",
          firstName := none, lastName := none } db0 =
      (.error (.conflict "Username already taken"), db0) ∧
    register cfg0 0 id
        { email := "a@x.com", username := "bob", password := "pw",
          firstName := none, lastName := none } db0 =
      (.error (.conflict "Email already registered"), db0) :=
  ⟨(register_conflict_order cfg0 0 id _ db0).1 alice (by decide),
   (register_conflict_order cfg0 0 id _ db0).2.1 (by decide) alice (by decide),
   (register_conflict_order cfg0 0 id _ db0).2.2 alice bob (by decide)
     (by decide)⟩

/-! ## C6: the Gate rejects non-access tokens -/

/-- Claim C6: a correctly signed, unexpired token whose payload `type` is not
`access` is rejected by the Authorization Gate with
`AuthenticationError("Invalid token type")`, for every store `db` — the
outcome does not depend on the store, so no user lookup can influence it and
a refresh token can never serve as a session credential. -/
theorem gate_rejects_non_access_token (cfg : Config) (now : Nat) (tok : Jwt)
    (db : DB) (p : TokenPayload)
    (hv : jwtVerify tok cfg.secret now = .ok p) (ht : p.type ≠ .access) :
    authenticate cfg now (some tok) db =
      .error (.authentication "Invalid token type") := by
  simp [authenticate, authenticateTry, hv, ht, GateError.isJsonWebTokenError,
    GateError.isTokenExpiredError, GateError.forward]

/-- Witness for `gate_rejects_non_access_token`: a well-signed, unexpired
refresh-typed token presented to the Gate over `db0`. -/
theorem gate_rejects_non_access_token_witness :
    authenticate cfg0 0
        (some (jwtSign { sub := "u1", email := "a@x.com", role := .USER,
                         type := .refresh } "s" 604800 0)) db0 =
      .error (.authentication "Invalid token type") :=
  gate_rejects_non_access_token cfg0 0 _ db0
    { sub := "u1", email := "a@x.com", role := .USER, type := .refresh }
    (by decide) (by decide)

/-! ## C3: Gate failure messages for bad signature vs. expiry -/

/-- Expired fixture: signed with the configured secret at clock 0 with a
5-second lifetime, presented at clock 10. -/
def expiredTok0 : Jwt :=
  jwtSign { sub := "u1", email := "a@x.com", role := .USER, type := .access }
    "s" 5 0

/-- Bad-signature fixture: signed with a different secret. -/
def badSigTok0 : Jwt :=
  jwtSign { sub := "u1", email := "a@x.com", role := .USER, type := .access }
    "wrong" 900 0

/-- Claim C3 evaluated on the code: a badly signed token yields
`AuthenticationError("Invalid token")` as claimed, but a correctly signed
token whose expiry has elapsed ALSO yields "Invalid token", never the
distinct "Token expired".  The `catch` block tests
`error instanceof jwt.JsonWebTokenError` before
`error instanceof jwt.TokenExpiredError`, and `TokenExpiredError` is a
subclass of `JsonWebTokenError` in the `jsonwebtoken` library, so the
"Token expired" branch in the source is unreachable. -/
theorem gate_expiry_message_collapsed :
    authenticate cfg0 0 (some badSigTok0) db0 =
      .error (.authentication "Invalid token") ∧
    jwtVerify expiredTok0 cfg0.secret 10 = .expired ∧
    authenticate cfg0 10 (some expiredTok0) db0 =
      .error (.authentication "Invalid token") ∧
    ¬ authenticate cfg0 10 (some expiredTok0) db0 =
        .error (.authentication "Token expired") := by
  refine ⟨rfl, rfl, rfl, ?_⟩
  intro hcontra
  rw [show authenticate cfg0 10 (some expiredTok0) db0 =
        .error (.authentication "Invalid token") from rfl] at hcontra
  simp at hcontra

/-! ## C5: stored refresh expiry is a fixed 7 days -/

/-- Claim C5: every issuance (`generateTokens`, reached from register, login
and refresh) persists the refresh token with `expiresAt` exactly
`now + 7 * 24 * 60 * 60`, computed independently of the configured refresh
duration embedded in the signed token, so the stored window and the token's
embedded expiry agree iff the configured duration parses to 7 days. -/
theorem issuance_store_expiry_seven_days (cfg : Config) (now : Nat)
    (user : User) (db : DB) :
    ((mintedRefreshToken cfg now user).exp = now + 7 * 24 * 60 * 60 ↔
      parseDuration cfg.refreshTokenExpiresIn = 7 * 24 * 60 * 60) ∧
    (∀ pair db', generateTokens cfg now user db = .ok (pair, db') →
      ∃ row : RefreshTokenRow,
        db'.refreshTokens = db.refreshTokens ++ [row] ∧
        row.token = pair.refreshToken ∧
        row.expiresAt = now + 7 * 24 * 60 * 60 ∧
        (row.token.exp = row.expiresAt ↔
          parseDuration cfg.refreshTokenExpiresIn = 7 * 24 * 60 * 60)) ∧
    (∀ hash data res db',
      register cfg now hash data db = (.ok res, db') →
      ∃ row : RefreshTokenRow, ∃ dbMid : DB,
        db'.refreshTokens = dbMid.refreshTokens ++ [row] ∧
        row.expiresAt = now + 7 * 24 * 60 * 60 ∧
        (row.token.exp = row.expiresAt ↔
          parseDuration cfg.refreshTokenExpiresIn = 7 * 24 * 60 * 60)) ∧
    (∀ vp data res db',
      login cfg now vp data db = (.ok res, db') →
      ∃ row : RefreshTokenRow, ∃ dbMid : DB,
        db'.refreshTokens = dbMid.refreshTokens ++ [row] ∧
        row.expiresAt = now + 7 * 24 * 60 * 60 ∧
        (row.token.exp = row.expiresAt ↔
          parseDuration cfg.refreshTokenExpiresIn = 7 * 24 * 60 * 60)) ∧
    (∀ tok res db',
      refreshAccessToken cfg now tok db = (.ok res, db') →
      ∃ row : RefreshTokenRow, ∃ dbMid : DB,
        db'.refreshTokens = dbMid.refreshTokens ++ [row] ∧
        row.expiresAt = now + 7 * 24 * 60 * 60 ∧
        (row.token.exp = row.expiresAt ↔
          parseDuration cfg.refreshTokenExpiresIn = 7 * 24 * 60 * 60)) := by
  have hminted : ∀ u : User, (mintedRefreshToken cfg now u).exp =
      now + parseDuration cfg.refreshTokenExpiresIn := fun _ => rfl
  have hcore : ∀ (u : User) (dbMid : DB) (pair : TokenPair) (db' : DB),
      generateTokens cfg now u dbMid = .ok (pair, db') →
      ∃ row : RefreshTokenRow,
        db'.refreshTokens = dbMid.refreshTokens ++ [row] ∧
        row.token = pair.refreshToken ∧
        row.expiresAt = now + 7 * 24 * 60 * 60 ∧
        (row.token.exp = row.expiresAt ↔
          parseDuration cfg.refreshTokenExpiresIn = 7 * 24 * 60 * 60) := by
    intro u dbMid pair db' h
    obtain ⟨h1, -, h3⟩ := generateTokens_ok_inv cfg now u dbMid pair db' h
    refine ⟨_, h3, by rw [h1], rfl, ?_⟩
    simp only [mintedRefreshToken, jwtSign]
    omega
  refine ⟨?_, fun pair db' h => hcore user db pair db' h, ?_, ?_, ?_⟩
  · rw [hminted user]
    omega
  · intro hash data res db' h
    obtain ⟨u, dbMid, pairX, -, hgen⟩ :=
      register_ok_shape cfg now hash data db res db' h
    obtain ⟨row, hr1, -, hr3, hr4⟩ := hcore u dbMid pairX db' hgen
    exact ⟨row, dbMid, hr1, hr3, hr4⟩
  · intro vp data res db' h
    obtain ⟨u, dbMid, pairX, -, -, hgen⟩ :=
      login_ok_shape cfg now vp data db res db' h
    obtain ⟨row, hr1, -, hr3, hr4⟩ := hcore u dbMid pairX db' hgen
    exact ⟨row, dbMid, hr1, hr3, hr4⟩
  · intro tok res db' h
    obtain ⟨u, dbMid, hgen⟩ := refresh_ok_shape cfg now tok db res db' h
    obtain ⟨row, hr1, -, hr3, hr4⟩ := hcore u dbMid res db' hgen
    exact ⟨row, dbMid, hr1, hr3, hr4⟩

/-- Registration input used by the C5 witness. -/
def regData0 : RegisterInput :=
  { email := "c@x.com", username := "carol", password := "pw",
    firstName := none, lastName := none }

/-- The user row `register cfg0 0 id regData0 db0` creates (hash function
`id`, so `passwordHash` is the plaintext; fresh id `"3"`). -/
def carol : User :=
  { id := "3", email := "c@x.com", username := "carol", passwordHash := "pw",
    firstName := none, lastName := none, role := .USER, isActive := true,
    isVerified := false, createdAt := 0, lastLoginAt := none }

/-- Token pair minted for `carol` at clock 0 under `cfg0`. -/
def carolPair : TokenPair :=
  { accessToken := jwtSign
      { sub := "3", email := "c@x.com", role := .USER, type := .access }
      "s" 900 0,
    refreshToken := mintedRefreshToken cfg0 0 carol }

/-- Final store of `register cfg0 0 id regData0 db0`. -/
def dbCarolFinal : DB :=
  { users := [alice, bob, carol],
    refreshTokens := [{ id := 0, token := mintedRefreshToken cfg0 0 carol,
                        userId := "3", expiresAt := 604800,
                        isRevoked := false, createdAt := 0 }],
    nextUserId := 4, nextTokenRowId := 1 }

/-- Witness for `issuance_store_expiry_seven_days`: its register clause at a
concrete successful registration over `db0`. -/
theorem issuance_store_expiry_seven_days_witness :
    ∃ row : RefreshTokenRow, ∃ dbMid : DB,
      dbCarolFinal.refreshTokens = dbMid.refreshTokens ++ [row] ∧
      row.expiresAt = 0 + 7 * 24 * 60 * 60 ∧
      (row.token.exp = row.expiresAt ↔
        parseDuration cfg0.refreshTokenExpiresIn = 7 * 24 * 60 * 60) :=
  (issuance_store_expiry_seven_days cfg0 0 alice db0).2.2.1 id regData0
    (toSafeUser carol, carolPair) dbCarolFinal rfl

/-! ## C9: no client-facing projection carries `passwordHash` -/

/-- Claim C9: the safe-user projection has no `passwordHash` key, and every
user value returned by `getCurrentUser`, `register` and `login` is exactly
`toSafeUser` of a user row — so no code path serializes the hash. -/
theorem safe_user_excludes_password_hash :
    ("passwordHash" ∉ SafeUser.fieldNames) ∧
    (∀ userId db su, getCurrentUser userId db = .ok su →
      ∃ u, u ∈ db.users ∧ su = toSafeUser u) ∧
    (∀ cfg now hash data db res db',
      register cfg now hash data db = (.ok res, db') →
      ∃ u : User, res.1 = toSafeUser u) ∧
    (∀ cfg now vp data db res db',
      login cfg now vp data db = (.ok res, db') →
      ∃ u, u ∈ db.users ∧ res.1 = toSafeUser u) := by
  refine ⟨by decide, ?_, ?_, ?_⟩
  · intro userId db su h
    unfold getCurrentUser at h
    split at h
    · exact absurd h (by simp)
    · rename_i user hfind
      exact ⟨user, List.mem_of_find?_eq_some hfind, (Except.ok.inj h).symm⟩
  · intro cfg now hash data db res db' h
    obtain ⟨u, dbMid, pairX, h1, -⟩ :=
      register_ok_shape cfg now hash data db res db' h
    exact ⟨u, h1⟩
  · intro cfg now vp data db res db' h
    obtain ⟨u, dbMid, pairX, hfind, h1, -⟩ :=
      login_ok_shape cfg now vp data db res db' h
    exact ⟨u, List.mem_of_find?_eq_some hfind, h1⟩

/-- Witness for `safe_user_excludes_password_hash`: `getCurrentUser` on
`db0` for `alice`. -/
theorem safe_user_excludes_password_hash_witness :
    ∃ u, u ∈ db0.users ∧ toSafeUser alice = toSafeUser u :=
  safe_user_excludes_password_hash.2.1 "u1" db0 (toSafeUser alice) rfl

/-- Refresh token issued to `alice` at clock 0 with a 7-day lifetime. -/
def aliceTok0 : Jwt :=
  jwtSign { sub := "u1", email := "a@x.com", role := .USER, type := .refresh }
    "s" 604800 0

/-- Refresh token issued to `bob` at clock 0 with a 7-day lifetime. -/
def bobTok0 : Jwt :=
  jwtSign { sub := "u2", email := "b@x.com", role := .USER, type := .refresh }
    "s" 604800 0

/-- Stored row for `aliceTok0`. -/
def rowA : RefreshTokenRow :=
  { id := 0, token := aliceTok0, userId := "u1", expiresAt := 604800,
    isRevoked := false, createdAt := 0 }

/-- Stored row for `bobTok0`. -/
def rowB : RefreshTokenRow :=
  { id := 1, token := bobTok0, userId := "u2", expiresAt := 604800,
    isRevoked := false, createdAt := 0 }

/-- Store with one live refresh token for each of the two users. -/
def dbTwo : DB :=
  { users := [alice, bob], refreshTokens := [rowA, rowB], nextUserId := 3,
    nextTokenRowId := 2 }

/-! ## C8: logout revokes exactly the matching rows -/

/-- Claim C8: `logout userId (some tok)` revokes exactly the rows matching
both the token and the user id, leaving every other row unchanged (and is a
no-op when nothing matches); `logout userId none` revokes exactly the rows
of that user; the `users` table is untouched and the operation is total. -/
theorem logout_scoped_revocation (userId : String) (tok : Jwt) (db : DB) :
    ((logout userId (some tok) db).users = db.users) ∧
    (∀ r ∈ db.refreshTokens, ¬(r.token = tok ∧ r.userId = userId) →
      r ∈ (logout userId (some tok) db).refreshTokens) ∧
    (∀ r ∈ db.refreshTokens, r.token = tok → r.userId = userId →
      { r with isRevoked := true } ∈
        (logout userId (some tok) db).refreshTokens) ∧
    (∀ r' ∈ (logout userId (some tok) db).refreshTokens,
      r' ∈ db.refreshTokens ∨
      ∃ r ∈ db.refreshTokens, r.token = tok ∧ r.userId = userId ∧
        r' = { r with isRevoked := true }) ∧
    ((∀ r ∈ db.refreshTokens, ¬(r.token = tok ∧ r.userId = userId)) →
      logout userId (some tok) db = db) ∧
    ((logout userId none db).users = db.users) ∧
    (∀ r' ∈ (logout userId none db).refreshTokens, r'.userId = userId →
      r'.isRevoked = true) ∧
    (∀ r ∈ db.refreshTokens, r.userId ≠ userId →
      r ∈ (logout userId none db).refreshTokens) ∧
    (∀ r' ∈ (logout userId none db).refreshTokens, r'.userId ≠ userId →
      r' ∈ db.refreshTokens) := by
  refine ⟨rfl, ?_, ?_, ?_, ?_, rfl, ?_, ?_, ?_⟩
  · intro r hr hne
    exact List.mem_map.mpr ⟨r, hr, if_neg hne⟩
  · intro r hr h1 h2
    exact List.mem_map.mpr ⟨r, hr, if_pos ⟨h1, h2⟩⟩
  · intro r' hr'
    obtain ⟨r, hr, heq⟩ := List.mem_map.mp hr'
    by_cases hc : r.token = tok ∧ r.userId = userId
    · right
      exact ⟨r, hr, hc.1, hc.2, by rw [← heq, if_pos hc]⟩
    · left
      rw [← heq, if_neg hc]
      exact hr
  · intro hall
    have hmap : ∀ l : List RefreshTokenRow,
        (∀ r ∈ l, ¬(r.token = tok ∧ r.userId = userId)) →
        l.map (fun r =>
          if r.token = tok ∧ r.userId = userId then { r with isRevoked := true }
          else r) = l := by
      intro l hl
      induction l with
      | nil => rfl
      | cons a l ih =>
        simp only [List.map_cons]
        rw [if_neg (hl a (by simp)), ih (fun r hr => hl r (by simp [hr]))]
    obtain ⟨us, rts, nu, nt⟩ := db
    simp only [logout]
    rw [hmap rts hall]
  · intro r' hr' h
    obtain ⟨r, hr, heq⟩ := List.mem_map.mp hr'
    by_cases hc : r.userId = userId
    · rw [← heq, if_pos hc]
    · rw [← heq, if_neg hc] at h
      exact absurd h hc
  · intro r hr h
    exact List.mem_map.mpr ⟨r, hr, if_neg h⟩
  · intro r' hr' h
    obtain ⟨r, hr, heq⟩ := List.mem_map.mp hr'
    by_cases hc : r.userId = userId
    · rw [← heq, if_pos hc] at h
      exact absurd hc h
    · rw [← heq, if_neg hc]
      exact hr

/-- Witness for `logout_scoped_revocation` on `dbTwo`: revoking `alice`'s
token leaves `bob`'s row unchanged and revokes hers; global logout for
`alice` leaves `bob`'s row unchanged. -/
theorem logout_scoped_revocation_witness :
    rowB ∈ (logout "u1" (some aliceTok0) dbTwo).refreshTokens ∧
    { rowA with isRevoked := true } ∈
      (logout "u1" (some aliceTok0) dbTwo).refreshTokens ∧
    rowB ∈ (logout "u1" none dbTwo).refreshTokens :=
  ⟨(logout_scoped_revocation "u1" aliceTok0 dbTwo).2.1 rowB (by decide)
     (by decide),
   (logout_scoped_revocation "u1" aliceTok0 dbTwo).2.2.1 rowA (by decide)
     rfl rfl,
   (logout_scoped_revocation "u1" aliceTok0 dbTwo).2.2.2.2.2.2.2.1 rowB
     (by decide) (by decide)⟩

/-! ## C10: refresh never checks the owner's `isActive` (amended) -/

/-- Counterexample to claim C10 as stated: at clock 0 — the very second
`bobTok0` was issued — every condition of the claim holds for the disabled
user `bob` (well-signed refresh-typed token, row present, unrevoked,
store-unexpired, `isActive = false`), yet refresh does NOT succeed: the
rotation re-mints a byte-identical refresh JWT and the insert hits the
unique `token` column (P2002), so the call throws instead of returning a
pair. -/
theorem refresh_ignores_is_active_cex :
    bob.isActive = false ∧
    jwtVerify bobTok0 cfg0.secret 0 = .ok bobTok0.payload ∧
    bobTok0.payload.type = .refresh ∧
    dbTwo.refreshTokens.find? (fun r => r.token = bobTok0) = some rowB ∧
    rowB.isRevoked = false ∧
    ¬ rowB.expiresAt < 0 ∧
    (refreshAccessToken cfg0 0 bobTok0 dbTwo).1 =
      .error (.prismaUniqueViolation "RefreshToken.token") :=
  ⟨rfl, rfl, rfl, by decide, rfl, by decide, rfl⟩

/-- Claim C10 (amended): `refreshAccessToken` never inspects the owning
user's `isActive` flag — whenever the token passes JWT verification with a
`refresh`-typed payload, its stored row is present, unrevoked and
store-unexpired, and the rotation's re-minted refresh token collides with
no stored token value (the only remaining failure mode, hit by a
same-second re-issuance), refresh succeeds even for a user with
`isActive = false`; by contrast `login` on that same disabled user fails
with "Account is disabled" and the Authorization Gate rejects any
well-signed access token for that user with "User not found or inactive". -/
theorem refresh_ignores_is_active (cfg : Config) (now : Nat) (tok : Jwt)
    (db : DB) (p : TokenPayload) (row : RefreshTokenRow) (user : User)
    (hv : jwtVerify tok cfg.secret now = .ok p)
    (ht : p.type = .refresh)
    (hfind : db.refreshTokens.find? (fun r => r.token = tok) = some row)
    (hrev : row.isRevoked = false)
    (hexp : ¬ row.expiresAt < now)
    (huser : db.users.find? (fun u => u.id = row.userId) = some user)
    (hfresh : ∀ r ∈ db.refreshTokens,
      r.token ≠ mintedRefreshToken cfg now user)
    (hinactive : user.isActive = false) :
    (∃ pair db', refreshAccessToken cfg now tok db = (.ok pair, db')) ∧
    (∀ vp pw, db.users.find? (fun v => v.email = user.email) = some user →
      login cfg now vp { email := user.email, password := pw } db =
        (.error (.authentication "Account is disabled"), db)) ∧
    (∀ tok2 p2, jwtVerify tok2 cfg.secret now = .ok p2 →
      p2.type = .access → db.users.find? (fun u => u.id = p2.sub) = some user →
      authenticate cfg now (some tok2) db =
        .error (.authentication "User not found or inactive")) := by
  have hp : p = tok.payload :=
    ((jwtVerify_ok_iff tok cfg.secret now p).mp hv).2.2
  refine ⟨?_, ?_, ?_⟩
  · exact ⟨_, _, refreshAccessToken_ok_of_valid cfg now tok db row user
      (hp ▸ hv) (hp ▸ ht) hfind hrev hexp huser hfresh⟩
  · intro vp pw hfindEmail
    simp [login, hfindEmail, hinactive]
  · intro tok2 p2 hv2 ht2 hfind2
    simp [authenticate, authenticateTry, hv2, ht2, hfind2, hinactive,
      GateError.isJsonWebTokenError, GateError.isTokenExpiredError,
      GateError.forward]

/-- Witness for `refresh_ignores_is_active`: `bob` is disabled, yet his
live refresh token rotates successfully over `dbTwo` at clock 1 (one second
after issuance, so the re-mint is fresh). -/
theorem refresh_ignores_is_active_witness :
    bob.isActive = false ∧
    (∃ pair db', refreshAccessToken cfg0 1 bobTok0 dbTwo = (.ok pair, db')) :=
  ⟨rfl,
   (refresh_ignores_is_active cfg0 1 bobTok0 dbTwo _ rowB bob rfl rfl
      (by decide) rfl (by decide) rfl (by decide) rfl).1⟩

/-! ## C2: store conditions governing refresh (amended) -/

/-- Claim C2 (amended): for a refresh-typed token that passes JWT
verification at the call (well-signed AND its embedded expiry not elapsed),
refresh mints a new pair iff a row exists, is unrevoked, its store-tracked
`expiresAt` has not passed, AND the refresh token re-minted for the row's
owner collides with no stored token value — a same-second re-issuance
reproduces the previous token byte for byte, so the insert throws P2002
with the rotation already persisted.  A missing row and a revoked row share
the message "Token has been revoked", and a store-expired row fails with
"Token has expired".  The referential-integrity hypothesis `hwf` reflects
the schema's required `user` relation on `RefreshToken`. -/
theorem refresh_usability_conditions (cfg : Config) (now : Nat) (tok : Jwt)
    (db : DB) (p : TokenPayload)
    (hv : jwtVerify tok cfg.secret now = .ok p)
    (ht : p.type = .refresh)
    (hwf : ∀ r ∈ db.refreshTokens, ∃ u ∈ db.users, u.id = r.userId) :
    ((∃ pair db', refreshAccessToken cfg now tok db = (.ok pair, db')) ↔
      (∃ row user,
        db.refreshTokens.find? (fun r => r.token = tok) = some row ∧
        db.users.find? (fun u => u.id = row.userId) = some user ∧
        row.isRevoked = false ∧ ¬ row.expiresAt < now ∧
        ∀ r ∈ db.refreshTokens,
          r.token ≠ mintedRefreshToken cfg now user)) ∧
    (db.refreshTokens.find? (fun r => r.token = tok) = none →
      refreshAccessToken cfg now tok db =
        (.error (.authentication "Token has been revoked"), db)) ∧
    (∀ row, db.refreshTokens.find? (fun r => r.token = tok) = some row →
      row.isRevoked = true →
      refreshAccessToken cfg now tok db =
        (.error (.authentication "Token has been revoked"), db)) ∧
    (∀ row, db.refreshTokens.find? (fun r => r.token = tok) = some row →
      row.isRevoked = false → row.expiresAt < now →
      refreshAccessToken cfg now tok db =
        (.error (.authentication "Token has expired"), db)) ∧
    (∀ row user,
      db.refreshTokens.find? (fun r => r.token = tok) = some row →
      db.users.find? (fun u => u.id = row.userId) = some user →
      row.isRevoked = false → ¬ row.expiresAt < now →
      (∃ r ∈ db.refreshTokens,
        r.token = mintedRefreshToken cfg now user) →
      refreshAccessToken cfg now tok db =
        (.error (.prismaUniqueViolation "RefreshToken.token"),
         rotateDB db row.id)) := by
  have herr1 : db.refreshTokens.find? (fun r => r.token = tok) = none →
      refreshAccessToken cfg now tok db =
        (.error (.authentication "Token has been revoked"), db) := by
    intro hnone
    unfold refreshAccessToken
    rw [hv]
    simp [ht, hnone]
  have herr2 : ∀ row,
      db.refreshTokens.find? (fun r => r.token = tok) = some row →
      row.isRevoked = true →
      refreshAccessToken cfg now tok db =
        (.error (.authentication "Token has been revoked"), db) := by
    intro row hfind hrev
    unfold refreshAccessToken
    rw [hv]
    simp [ht, hfind, hrev]
  have herr3 : ∀ row,
      db.refreshTokens.find? (fun r => r.token = tok) = some row →
      row.isRevoked = false → row.expiresAt < now →
      refreshAccessToken cfg now tok db =
        (.error (.authentication "Token has expired"), db) := by
    intro row hfind hrev hexp
    unfold refreshAccessToken
    rw [hv]
    simp [ht, hfind, hrev, hexp]
  have herr4 : ∀ row user,
      db.refreshTokens.find? (fun r => r.token = tok) = some row →
      db.users.find? (fun u => u.id = row.userId) = some user →
      row.isRevoked = false → ¬ row.expiresAt < now →
      (∃ r ∈ db.refreshTokens,
        r.token = mintedRefreshToken cfg now user) →
      refreshAccessToken cfg now tok db =
        (.error (.prismaUniqueViolation "RefreshToken.token"),
         rotateDB db row.id) := by
    intro row user hfind huser hrev hexp hcol
    have hcol1 : ∃ r ∈ (rotateDB db row.id).refreshTokens,
        r.token = mintedRefreshToken cfg now user := by
      obtain ⟨r, hr, hrt⟩ := hcol
      refine ⟨if r.id = row.id then { r with isRevoked := true } else r,
        List.mem_map_of_mem _ hr, ?_⟩
      rw [rotate_preserves_token]
      exact hrt
    have hgen := generateTokens_error_of_collision cfg now user
      (rotateDB db row.id) hcol1
    unfold refreshAccessToken
    rw [hv]
    simp only [rotateDB] at hgen
    simp [ht, hfind, hrev, hexp, huser, hgen, rotateDB]
  refine ⟨⟨?_, ?_⟩, herr1, herr2, herr3, herr4⟩
  · rintro ⟨pair, db', h⟩
    cases hfind : db.refreshTokens.find? (fun r => r.token = tok) with
    | none =>
      rw [herr1 hfind] at h
      exact absurd h (by simp)
    | some row =>
      have hrowmem := List.mem_of_find?_eq_some hfind
      obtain ⟨u0, humem, huid⟩ := hwf row hrowmem
      have hsome : (db.users.find? (fun v => v.id = row.userId)).isSome :=
        List.find?_isSome.mpr ⟨u0, humem, by simp [huid]⟩
      obtain ⟨user, huser⟩ := Option.isSome_iff_exists.mp hsome
      by_cases hrev : row.isRevoked = true
      · rw [herr2 row hfind hrev] at h
        exact absurd h (by simp)
      · by_cases hexp : row.expiresAt < now
        · rw [herr3 row hfind (by simpa using hrev) hexp] at h
          exact absurd h (by simp)
        · refine ⟨row, user, rfl, huser, by simpa using hrev, hexp, ?_⟩
          intro r hr hcontra
          rw [herr4 row user hfind huser (by simpa using hrev) hexp
            ⟨r, hr, hcontra⟩] at h
          exact absurd h (by simp)
  · rintro ⟨row, user, hfind, huser, hrev, hexp, hfreshm⟩
    have hp : p = tok.payload :=
      ((jwtVerify_ok_iff tok cfg.secret now p).mp hv).2.2
    exact ⟨_, _, refreshAccessToken_ok_of_valid cfg now tok db row user
      (hp ▸ hv) (hp ▸ ht) hfind hrev hexp huser hfreshm⟩

/-- Refresh token signed at clock 5 that was never persisted to any store. -/
def unseenTok0 : Jwt :=
  jwtSign { sub := "u1", email := "a@x.com", role := .USER, type := .refresh }
    "s" 604800 5

/-- Witness for `refresh_usability_conditions`: the never-persisted
`unseenTok0` fails over `db0` with the revoked-token message. -/
theorem refresh_usability_conditions_witness :
    refreshAccessToken cfg0 6 unseenTok0 db0 =
      (.error (.authentication "Token has been revoked"), db0) :=
  (refresh_usability_conditions cfg0 6 unseenTok0 db0
    { sub := "u1", email := "a@x.com", role := .USER, type := .refresh }
    rfl rfl
    (fun r hr => absurd hr (List.not_mem_nil r))).2.1 rfl

/-- Refresh token for `bob` whose embedded lifetime is 1 second, although
its stored row below gets the fixed 7-day window. -/
def shortTok0 : Jwt :=
  jwtSign { sub := "u2", email := "b@x.com", role := .USER, type := .refresh }
    "s" 1 0

/-- Stored row for `shortTok0`: live, unrevoked, store expiry 604800. -/
def rowShort : RefreshTokenRow :=
  { id := 0, token := shortTok0, userId := "u2", expiresAt := 604800,
    isRevoked := false, createdAt := 0 }

/-- Store holding `rowShort` for the two users. -/
def dbShort : DB :=
  { users := [alice, bob], refreshTokens := [rowShort], nextUserId := 3,
    nextTokenRowId := 1 }

/-- Counterexample to claim C2 as stated: `shortTok0` is well-signed
(signed with the configured secret) and refresh-typed, its stored row
exists, is unrevoked and store-unexpired at clock 5, yet
`refreshAccessToken` does not succeed — the token's own embedded expiry
(clock 1) elapsed first, so the call fails with "Invalid refresh token".
The claimed usability iff is therefore false at this input. -/
theorem refresh_usability_conditions_cex :
    shortTok0.secret = cfg0.secret ∧
    shortTok0.payload.type = .refresh ∧
    ¬(((∃ pair db',
        refreshAccessToken cfg0 5 shortTok0 dbShort = (.ok pair, db'))) ↔
      (∃ row, dbShort.refreshTokens.find? (fun r => r.token = shortTok0) =
          some row ∧ row.isRevoked = false ∧ ¬ row.expiresAt < 5)) := by
  refine ⟨rfl, rfl, fun hiff => ?_⟩
  obtain ⟨pair, db', h⟩ := hiff.mpr ⟨rowShort, rfl, rfl, by decide⟩
  rw [show refreshAccessToken cfg0 5 shortTok0 dbShort =
      (.error (.authentication "Invalid refresh token"), dbShort) from rfl] at h
  exact absurd h (by simp)

/-- Rotation (`isRevoked := true` on one row id) does not change any row's
token, so `find?` by token commutes with it. -/
lemma find?_token_rotate (l : List RefreshTokenRow) (rowId : Nat) (t : Jwt) :
    (l.map (fun r =>
        if r.id = rowId then { r with isRevoked := true } else r)).find?
        (fun r => r.token = t) =
      (l.find? (fun r => r.token = t)).map
        (fun r => if r.id = rowId then { r with isRevoked := true } else r) := by
  rw [List.find?_map]
  have hpg : ((fun r : RefreshTokenRow => decide (r.token = t)) ∘ (fun r =>
      if r.id = rowId then { r with isRevoked := true } else r)) =
      (fun r : RefreshTokenRow => decide (r.token = t)) := by
    funext r
    by_cases hc : r.id = rowId <;> simp [hc]
  rw [hpg]

/-! ## C1: refresh-token rotation is single-use (amended) -/

/-- Claim C1 (amended): when `refreshAccessToken` succeeds on `tok`, every
row for `tok` in the resulting store is revoked; a replay of `tok` that
still passes JWT verification (`now2 < tok.exp`) fails with
"Token has been revoked"; and the newly minted refresh token succeeds if
presented next while its embedded window (`hnow3a`) and the stored 7-day
window (`hnow3b`) are both open and the rotation it triggers re-mints a
token colliding with no stored one (`hfresh3`, `hne3` — violated exactly by
a same-second presentation, where the deterministic re-mint reproduces the
stored token and the insert throws P2002).  `huniq` is the store's unique
constraint on the token column; `hfresh` says the first mint is fresh
(otherwise the first call itself throws P2002). -/
theorem refresh_rotation_single_use (cfg : Config) (now now2 now3 : Nat)
    (tok : Jwt) (db : DB) (p : TokenPayload) (row : RefreshTokenRow)
    (user : User)
    (hv : jwtVerify tok cfg.secret now = .ok p)
    (ht : p.type = .refresh)
    (hfind : db.refreshTokens.find? (fun r => r.token = tok) = some row)
    (hrev : row.isRevoked = false)
    (hexp : ¬ row.expiresAt < now)
    (huser : db.users.find? (fun u => u.id = row.userId) = some user)
    (huniq : ∀ r1 ∈ db.refreshTokens, ∀ r2 ∈ db.refreshTokens,
      r1.token = r2.token → r1 = r2)
    (hfresh : ∀ r ∈ db.refreshTokens,
      r.token ≠ mintedRefreshToken cfg now user)
    (hnow2 : now2 < tok.exp)
    (hnow3a : now3 < (mintedRefreshToken cfg now user).exp)
    (hnow3b : ¬ now + 7 * 24 * 60 * 60 < now3)
    (hfresh3 : ∀ r ∈ db.refreshTokens,
      r.token ≠ mintedRefreshToken cfg now3 user)
    (hne3 : mintedRefreshToken cfg now3 user ≠
      mintedRefreshToken cfg now user) :
    ∃ pair db',
      refreshAccessToken cfg now tok db = (.ok pair, db') ∧
      pair.refreshToken = mintedRefreshToken cfg now user ∧
      (∀ r ∈ db'.refreshTokens, r.token = tok → r.isRevoked = true) ∧
      refreshAccessToken cfg now2 tok db' =
        (.error (.authentication "Token has been revoked"), db') ∧
      (∃ pair2 db'',
        refreshAccessToken cfg now3 pair.refreshToken db' =
          (.ok pair2, db'')) := by
  have hsec : tok.secret = cfg.secret :=
    ((jwtVerify_ok_iff tok cfg.secret now p).mp hv).1
  have hp : p = tok.payload :=
    ((jwtVerify_ok_iff tok cfg.secret now p).mp hv).2.2
  have hrowmem : row ∈ db.refreshTokens := List.mem_of_find?_eq_some hfind
  have hrowtok : row.token = tok := by simpa using List.find?_some hfind
  have huserid : user.id = row.userId := by simpa using List.find?_some huser
  have hstep := refreshAccessToken_ok_of_valid cfg now tok db row user
    (hp ▸ hv) (hp ▸ ht) hfind hrev hexp huser hfresh
  refine ⟨_, _, hstep, rfl, ?_, ?_, ?_⟩
  · -- every row carrying `tok` in the new store is revoked
    intro r hr hrtok
    simp only [afterRefreshDB, rotateDB] at hr
    rcases List.mem_append.mp hr with hmem | hmem
    · obtain ⟨r0, hr0, heq⟩ := List.mem_map.mp hmem
      by_cases hc : r0.id = row.id
      · rw [← heq, if_pos hc]
      · rw [← heq, if_neg hc] at hrtok ⊢
        have h0 : r0 = row := huniq r0 hr0 row hrowmem (by rw [hrtok, hrowtok])
        exact absurd (by rw [h0]) hc
    · have hrn : r.token = mintedRefreshToken cfg now user := by
        simp only [List.mem_singleton] at hmem
        subst hmem
        rfl
      rw [hrtok] at hrn
      have hne := hfresh row hrowmem
      rw [hrowtok] at hne
      exact absurd hrn hne
  · -- a replay that still passes JWT verification hits the revoked row
    have hv2 : jwtVerify tok cfg.secret now2 = .ok tok.payload :=
      (jwtVerify_ok_iff tok cfg.secret now2 tok.payload).mpr ⟨hsec, hnow2, rfl⟩
    have ht2 : tok.payload.type = .refresh := hp ▸ ht
    unfold refreshAccessToken
    rw [hv2]
    simp only [afterRefreshDB, rotateDB]
    rw [List.find?_append, find?_token_rotate, hfind]
    simp [ht2]
  · -- the freshly minted refresh token is accepted next
    have hvnew : jwtVerify (mintedRefreshToken cfg now user) cfg.secret now3 =
        .ok (mintedRefreshToken cfg now user).payload :=
      (jwtVerify_ok_iff _ _ _ _).mpr ⟨rfl, hnow3a, rfl⟩
    have hnone : db.refreshTokens.find?
        (fun r => r.token = mintedRefreshToken cfg now user) = none := by
      rw [List.find?_eq_none]
      intro x hx
      simpa using hfresh x hx
    have hfindNew :
        (afterRefreshDB cfg now user db row.id).refreshTokens.find?
          (fun r => r.token = mintedRefreshToken cfg now user) =
        some { id := db.nextTokenRowId,
               token := mintedRefreshToken cfg now user,
               userId := user.id, expiresAt := now + 7 * 24 * 60 * 60,
               isRevoked := false, createdAt := now } := by
      simp only [afterRefreshDB, rotateDB]
      rw [List.find?_append, find?_token_rotate, hnone]
      simp
    have huserNew :
        (afterRefreshDB cfg now user db row.id).users.find?
          (fun u => u.id = user.id) = some user := by
      show db.users.find? (fun u => u.id = user.id) = some user
      rw [huserid]
      exact huser
    have hfreshNew :
        ∀ r ∈ (afterRefreshDB cfg now user db row.id).refreshTokens,
          r.token ≠ mintedRefreshToken cfg now3 user := by
      intro r hr
      simp only [afterRefreshDB, rotateDB] at hr
      rcases List.mem_append.mp hr with hmem | hmem
      · obtain ⟨r0, hr0, heq⟩ := List.mem_map.mp hmem
        rw [← heq, rotate_preserves_token]
        exact hfresh3 r0 hr0
      · simp only [List.mem_singleton] at hmem
        subst hmem
        exact fun hcontra => hne3 hcontra.symm
    have hstep2 := refreshAccessToken_ok_of_valid cfg now3
      (mintedRefreshToken cfg now user)
      (afterRefreshDB cfg now user db row.id)
      { id := db.nextTokenRowId, token := mintedRefreshToken cfg now user,
        userId := user.id, expiresAt := now + 7 * 24 * 60 * 60,
        isRevoked := false, createdAt := now }
      user hvnew rfl hfindNew rfl hnow3b huserNew hfreshNew
    exact ⟨_, _, hstep2⟩

/-- Witness for `refresh_rotation_single_use`: `alice`'s live token over
`dbTwo`, rotated at clock 1, replayed at clock 2, new token used at clock 3
(a strictly later second, so its re-mint is fresh). -/
theorem refresh_rotation_single_use_witness :
    ∃ pair db',
      refreshAccessToken cfg0 1 aliceTok0 dbTwo = (.ok pair, db') ∧
      pair.refreshToken = mintedRefreshToken cfg0 1 alice ∧
      (∀ r ∈ db'.refreshTokens, r.token = aliceTok0 → r.isRevoked = true) ∧
      refreshAccessToken cfg0 2 aliceTok0 db' =
        (.error (.authentication "Token has been revoked"), db') ∧
      (∃ pair2 db'',
        refreshAccessToken cfg0 3 pair.refreshToken db' = (.ok pair2, db'')) :=
  refresh_rotation_single_use cfg0 1 2 3 aliceTok0 dbTwo _ rowA alice
    rfl rfl (by decide) (by decide) (by decide) (by decide) (by decide)
    (by decide) (by decide) (by decide) (by decide) (by decide) (by decide)

/-- Counterexample to claim C1 as stated, in both directions it
overpromises.  First call: `refreshAccessToken` succeeds on `shortTok0`
over `dbShort` at clock 0.  Replay at clock 5 — after the token's embedded
1-second expiry — fails with "Invalid refresh token", not the revoked-token
message the claim requires of ANY subsequent call.  And the new refresh
token from the first call does NOT "succeed if presented next" when
presented in the same second it was minted: the rotation re-mints the same
token and the insert throws P2002; presented after its own expiry it fails
with "Invalid refresh token" as well. -/
theorem refresh_rotation_single_use_cex :
    (∃ pair db',
      refreshAccessToken cfg0 0 shortTok0 dbShort = (.ok pair, db')) ∧
    (refreshAccessToken cfg0 5 shortTok0
        (refreshAccessToken cfg0 0 shortTok0 dbShort).2).1 =
      .error (.authentication "Invalid refresh token") ∧
    (AppErr.authentication "Invalid refresh token" ≠
      AppErr.authentication "Token has been revoked") ∧
    (refreshAccessToken cfg0 0 (mintedRefreshToken cfg0 0 bob)
        (refreshAccessToken cfg0 0 shortTok0 dbShort).2).1 =
      .error (.prismaUniqueViolation "RefreshToken.token") ∧
    (refreshAccessToken cfg0 604801 (mintedRefreshToken cfg0 0 bob)
        (refreshAccessToken cfg0 0 shortTok0 dbShort).2).1 =
      .error (.authentication "Invalid refresh token") := by
  exact ⟨⟨_, _, rfl⟩, rfl, by decide, rfl, rfl⟩

end ExpressAuth
